import Mathlib

/-!
The release command of goreleaser (cmd/release.go)

A shallow embedding of `releaseOpts`, `setupReleaseContext`, the pipeline loop
of `releaseProject`, `releaseProject` itself and the `RunE` closure of
`newReleaseCmd`, followed by the properties proved about them.

Go pointers to the run context become explicit state passing: a function that
mutates `*context.Context` takes the context and returns the updated one.
`error` values become `Option E` (`none` is `nil`).  Collaborators that live
outside cmd/release.go (the configuration loader, the context constructor, the
middleware, the registered pipeline, the ctrlc supervisor) are parameters.
-/

namespace Goreleaser

/-! ## Data model -/

/-- The struct `releaseOpts`: the flags of the release command. `parallelism`
is a Go `int` and `timeout` a `time.Duration` (nanoseconds); both are only
copied around, never computed with. -/
structure releaseOpts where
  config : String
  releaseNotes : String
  releaseHeader : String
  releaseFooter : String
  snapshot : Bool
  skipPublish : Bool
  skipSign : Bool
  skipValidate : Bool
  rmDist : Bool
  deprecated : Bool
  parallelism : Int
  timeout : Int
deriving DecidableEq, Repr

/-- Modelled from the spec: the struct `context.Context` (package pkg/context)
is declared outside cmd/release.go. The fields named here are the ones
cmd/release.go reads or writes, under the names it uses; `Config` is the loaded
configuration, `Done` is the cancellation state of the embedded standard
context (`true` once the deadline elapsed or the context was cancelled), and
`rest` stands for every other field of the struct. -/
structure Context (Cfg Rest : Type) where
  Config : Cfg
  Parallelism : Int
  ReleaseNotes : String
  ReleaseHeader : String
  ReleaseFooter : String
  Snapshot : Bool
  SkipPublish : Bool
  SkipValidate : Bool
  SkipSign : Bool
  RmDist : Bool
  Deprecated : Bool
  Done : Bool
  rest : Rest
deriving DecidableEq, Repr

/-- Severity of a log line (apex/log: `Debugf`, `Infof`, `Warn`). -/
inductive Level where
  | debug
  | info
  | warn
deriving DecidableEq, Repr

/-- The messages cmd/release.go formats. `parallelism n` is
"parallelism: n"; `releasing` is "releasing..."; `deprecatedWarning` is
"your config is using deprecated properties, check logs above for details";
`succeeded t` is "release succeeded after t" and `failed t` is
"release failed after t", where `t` is the reading of `time.Since(start)`. -/
inductive Msg where
  | parallelism (n : Int)
  | releasing
  | deprecatedWarning
  | succeeded (t : Nat)
  | failed (t : Nat)
deriving DecidableEq, Repr

/-- One line written to the logger. -/
structure Entry where
  level : Level
  msg : Msg
deriving DecidableEq, Repr

/-! ## setupReleaseContext -/

/-- The function `setupReleaseContext`, statement by statement. The second
component is what it writes to the logger. -/
def setupReleaseContext {Cfg Rest : Type} (ctx : Context Cfg Rest) (options : releaseOpts) :
    Context Cfg Rest × List Entry :=
  let ctx := { ctx with Parallelism := options.parallelism }
  let log := [Entry.mk Level.debug (Msg.parallelism ctx.Parallelism)]
  let ctx := { ctx with ReleaseNotes := options.releaseNotes }
  let ctx := { ctx with ReleaseHeader := options.releaseHeader }
  let ctx := { ctx with ReleaseFooter := options.releaseFooter }
  let ctx := { ctx with Snapshot := options.snapshot }
  let ctx := { ctx with SkipPublish := ctx.Snapshot || options.skipPublish }
  let ctx := { ctx with SkipValidate := ctx.Snapshot || options.skipValidate }
  let ctx := { ctx with SkipSign := options.skipSign }
  let ctx := { ctx with RmDist := options.rmDist }
  let ctx := { ctx with Deprecated := options.deprecated }
  (ctx, log)

/-! ## The pipeline loop -/

/-- The type `middleware.Action`: a function on the run context that may fail. -/
abbrev Action (Cfg Rest E : Type) : Type :=
  Context Cfg Rest → Context Cfg Rest × Option E

/-- The interface `pipeline.Piper`: `name` is the result of `String()`, `Run`
is the stage's action. -/
structure Piper (Cfg Rest E : Type) where
  name : String
  Run : Action Cfg Rest E

/-- The package internal/middleware, which is outside cmd/release.go: its two
wrappers and the padding constant are taken as given. -/
structure Middleware (Cfg Rest E : Type) where
  Logging : String → Action Cfg Rest E → Nat → Action Cfg Rest E
  ErrHandler : Action Cfg Rest E → Action Cfg Rest E
  DefaultInitialPadding : Nat

/-- The wrapped action the loop builds for one stage:
`middleware.Logging(pipe.String(), middleware.ErrHandler(pipe.Run), middleware.DefaultInitialPadding)`. -/
def wrapped {Cfg Rest E : Type} (mw : Middleware Cfg Rest E) (pipe : Piper Cfg Rest E) :
    Action Cfg Rest E :=
  mw.Logging pipe.name (mw.ErrHandler pipe.Run) mw.DefaultInitialPadding

/-- What the loop leaves behind: the context after the last invoked stage, the
returned error, and (as a record of the run) the stages whose wrapped action
was invoked, in order of invocation. -/
structure LoopResult (Cfg Rest E : Type) where
  ctx : Context Cfg Rest
  err : Option E
  invoked : List (Piper Cfg Rest E)

/-- The closure handed to `ctrlc.Default.Run` in `releaseProject`:
`for _, pipe := range pipeline.Pipeline { if err := wrapped(ctx); err != nil { return err } }; return nil`. -/
def pipelineLoop {Cfg Rest E : Type} (mw : Middleware Cfg Rest E) :
    Context Cfg Rest → List (Piper Cfg Rest E) → LoopResult Cfg Rest E
  | ctx, [] => ⟨ctx, none, []⟩
  | ctx, pipe :: rest =>
    match wrapped mw pipe ctx with
    | (ctx1, some err) => ⟨ctx1, some err, [pipe]⟩
    | (ctx1, none) =>
      let r := pipelineLoop mw ctx1 rest
      ⟨r.ctx, r.err, pipe :: r.invoked⟩

/-- The context in which the stage at position `i` is invoked when the stages
before it are invoked one after the other, each on the context its predecessor
left. -/
def ctxAt {Cfg Rest E : Type} (mw : Middleware Cfg Rest E) :
    Context Cfg Rest → List (Piper Cfg Rest E) → Nat → Context Cfg Rest
  | ctx, _, 0 => ctx
  | ctx, [], _ + 1 => ctx
  | ctx, pipe :: rest, i + 1 => ctxAt mw (wrapped mw pipe ctx).1 rest i

/-- The error (or `none` for nil) that the wrapped action of the stage at
position `i` returns when invoked after the stages before it; `none` when the
list has no position `i`. -/
def stageErr {Cfg Rest E : Type} (mw : Middleware Cfg Rest E) :
    Context Cfg Rest → List (Piper Cfg Rest E) → Nat → Option E
  | _, [], _ => none
  | ctx, pipe :: _, 0 => (wrapped mw pipe ctx).2
  | ctx, pipe :: rest, i + 1 => stageErr mw (wrapped mw pipe ctx).1 rest i

/-! ## releaseProject and the command -/

/-- The collaborators of `releaseProject`. `loadConfig` is the configuration
loader of package cmd; `NewWithTimeout` is `context.NewWithTimeout`, which
returns the new context and its cancel function; `Pipeline` is
`pipeline.Pipeline`; `Run` is `ctrlc.Default.Run`, the supervisor that is
handed the context and the task. -/
structure Env (Cfg Rest E : Type) where
  loadConfig : String → Except E Cfg
  NewWithTimeout : Cfg → Int → Context Cfg Rest × (Context Cfg Rest → Context Cfg Rest)
  mw : Middleware Cfg Rest E
  Pipeline : List (Piper Cfg Rest E)
  Run : Context Cfg Rest → (Context Cfg Rest → LoopResult Cfg Rest E) → LoopResult Cfg Rest E

/-- The two results of `releaseProject` (`ctx = none` is the nil pointer),
with the log lines it wrote itself and the stages invoked. -/
structure Released (Cfg Rest E : Type) where
  ctx : Option (Context Cfg Rest)
  err : Option E
  log : List Entry
  invoked : List (Piper Cfg Rest E)

/-- The function `releaseProject`. The deferred `cancel()` runs on return. -/
def releaseProject {Cfg Rest E : Type} (env : Env Cfg Rest E) (options : releaseOpts) :
    Released Cfg Rest E :=
  match env.loadConfig options.config with
  | Except.error err => ⟨none, some err, [], []⟩
  | Except.ok cfg =>
    let (ctx, cancel) := env.NewWithTimeout cfg options.timeout
    let (ctx, log) := setupReleaseContext ctx options
    let r := env.Run ctx (fun c => pipelineLoop env.mw c env.Pipeline)
    ⟨some (cancel r.ctx), r.err, log, r.invoked⟩

/-- Modelled from the spec: `wrapError` and the error type it builds are in
package cmd outside cmd/release.go. The spec has the failing run "wrapped in a
top-level release failed after Ns envelope": the result carries the
underlying error and the message. -/
structure exitError (E : Type) where
  err : E
  details : Msg
deriving DecidableEq, Repr

/-- Modelled from the spec: `wrapError(err, details)` wraps the error in the
envelope; it always yields an error value. -/
def wrapError {E : Type} (err : E) (details : Msg) : exitError E :=
  ⟨err, details⟩

/-- How a call of `RunE` ends: it returns an error or nil, or it dereferences
a nil context. -/
inductive Outcome (E : Type) where
  | nilDeref
  | returned (err : Option (exitError E))
deriving DecidableEq, Repr

/-- The closure `RunE` of `newReleaseCmd`, run with the options `opts` stored
in the command. `since` is the reading of `time.Since(start)` taken when the
final message is formatted. The second component is what the closure and
`releaseProject` write to the logger. -/
def RunE {Cfg Rest E : Type} (env : Env Cfg Rest E) (opts : releaseOpts) (since : Nat) :
    Outcome E × List Entry :=
  let log := [Entry.mk Level.info Msg.releasing]
  let r := releaseProject env opts
  let log := log ++ r.log
  match r.err with
  | some err => (Outcome.returned (some (wrapError err (Msg.failed since))), log)
  | none =>
    match r.ctx with
    | none => (Outcome.nilDeref, log)
    | some ctx =>
      let log := if ctx.Deprecated then log ++ [Entry.mk Level.warn Msg.deprecatedWarning] else log
      (Outcome.returned none, log ++ [Entry.mk Level.info (Msg.succeeded since)])

/-- A supervisor under which neither the deadline nor an interrupt fires
before the task ends: the task's result is the result. -/
def runToCompletion {Cfg Rest E : Type} (ctx : Context Cfg Rest)
    (task : Context Cfg Rest → LoopResult Cfg Rest E) : LoopResult Cfg Rest E :=
  task ctx

/-! ## Concrete inputs -/

/-- A context whose flags hold stale values from before the call. -/
def staleCtx : Context String Nat :=
  { Config := "project", Parallelism := 9, ReleaseNotes := "old.md", ReleaseHeader := "h.md",
    ReleaseFooter := "f.md", Snapshot := false, SkipPublish := true, SkipValidate := true,
    SkipSign := true, RmDist := true, Deprecated := true, Done := false, rest := 7 }

/-- A snapshot run that requests none of the skip flags. -/
def snapshotOpts : releaseOpts :=
  { config := "", releaseNotes := "", releaseHeader := "", releaseFooter := "",
    snapshot := true, skipPublish := false, skipSign := false, skipValidate := false,
    rmDist := false, deprecated := false, parallelism := 4, timeout := 1800000000000 }

/-- A regular run that requests to skip publishing only, with a negative
parallelism. -/
def plainOpts : releaseOpts :=
  { config := "cfg.yml", releaseNotes := "notes.md", releaseHeader := "", releaseFooter := "",
    snapshot := false, skipPublish := true, skipSign := false, skipValidate := false,
    rmDist := true, deprecated := false, parallelism := -3, timeout := 30000000000 }

/-- A middleware whose wrappers add nothing to the action they wrap. -/
def plainMiddleware : Middleware String Nat String :=
  { Logging := fun _ next _ => next, ErrHandler := fun action => action,
    DefaultInitialPadding := 3 }

/-- A stage that counts itself in `rest` and succeeds. -/
def okStage (name : String) : Piper String Nat String :=
  { name := name, Run := fun c => ({ c with rest := c.rest + 1 }, none) }

/-- A stage that fails with the given error. -/
def failStage (name : String) (msg : String) : Piper String Nat String :=
  { name := name, Run := fun c => (c, some msg) }

/-- Stages A and B succeed, C fails with "disk full", D and E come after it;
E would fail too. -/
def abcStages : List (Piper String Nat String) :=
  [okStage "A", okStage "B", failStage "C" "disk full", okStage "D", failStage "E" "late"]

/-- Three stages that all succeed. -/
def okStages : List (Piper String Nat String) :=
  [okStage "A", okStage "B", okStage "C"]

/-- A context that is already cancelled. -/
def cancelledCtx : Context String Nat :=
  { staleCtx with Done := true }

/-- An environment whose configuration loads, whose new context is blank,
whose cancel function marks the context cancelled, and whose supervisor lets
the three succeeding stages run to the end. -/
def okEnv : Env String Nat String :=
  { loadConfig := fun _ => Except.ok "project",
    NewWithTimeout := fun cfg _ =>
      ({ Config := cfg, Parallelism := 0, ReleaseNotes := "", ReleaseHeader := "",
         ReleaseFooter := "", Snapshot := false, SkipPublish := false, SkipValidate := false,
         SkipSign := false, RmDist := false, Deprecated := false, Done := false, rest := 0 },
       fun c => { c with Done := true }),
    mw := plainMiddleware,
    Pipeline := okStages,
    Run := runToCompletion }

/-- The same environment with a loader that fails. -/
def badConfigEnv : Env String Nat String :=
  { okEnv with loadConfig := fun _ => Except.error "no such file" }

/-- A regular run with the hidden `deprecated` flag set. -/
def deprecatedOpts : releaseOpts :=
  { plainOpts with deprecated := true }

/-! ## setupReleaseContext: flag resolution and frame -/

/-- C1: with `options.snapshot = true`, `setupReleaseContext` leaves
`SkipPublish = true` and `SkipValidate = true`, whatever the requested
`skipPublish` and `skipValidate` and whatever the starting context. -/
theorem setupReleaseContext_snapshot_forces {Cfg Rest : Type} (ctx : Context Cfg Rest)
    (options : releaseOpts) (h : options.snapshot = true) :
    (setupReleaseContext ctx options).1.SkipPublish = true ∧
      (setupReleaseContext ctx options).1.SkipValidate = true := by
  simp [setupReleaseContext, h]

/-- Witness of C1: a snapshot run requesting neither skip flag, on a context
with stale values. -/
theorem setupReleaseContext_snapshot_forces_witness :
    snapshotOpts.skipPublish = false ∧ snapshotOpts.skipValidate = false ∧
      (setupReleaseContext staleCtx snapshotOpts).1.SkipPublish = true ∧
      (setupReleaseContext staleCtx snapshotOpts).1.SkipValidate = true :=
  ⟨rfl, rfl, setupReleaseContext_snapshot_forces staleCtx snapshotOpts rfl⟩

/-- C3: `setupReleaseContext` sets `SkipPublish` to `skipPublish OR snapshot`,
`SkipValidate` to `skipValidate OR snapshot` and `Snapshot` to `snapshot`;
without snapshot the two flags are the requested values; and the three
results are the same from any two starting contexts. -/
theorem setupReleaseContext_flag_resolution {Cfg Rest : Type} (ctx ctx2 : Context Cfg Rest)
    (options : releaseOpts) :
    (setupReleaseContext ctx options).1.SkipPublish = (options.skipPublish || options.snapshot) ∧
      (setupReleaseContext ctx options).1.SkipValidate
        = (options.skipValidate || options.snapshot) ∧
      (setupReleaseContext ctx options).1.Snapshot = options.snapshot ∧
      (options.snapshot = false →
        (setupReleaseContext ctx options).1.SkipPublish = options.skipPublish ∧
        (setupReleaseContext ctx options).1.SkipValidate = options.skipValidate) ∧
      (setupReleaseContext ctx options).1.SkipPublish
        = (setupReleaseContext ctx2 options).1.SkipPublish ∧
      (setupReleaseContext ctx options).1.SkipValidate
        = (setupReleaseContext ctx2 options).1.SkipValidate ∧
      (setupReleaseContext ctx options).1.Snapshot
        = (setupReleaseContext ctx2 options).1.Snapshot := by
  refine ⟨?_, ?_, rfl, ?_, rfl, rfl, rfl⟩
  · simp [setupReleaseContext, Bool.or_comm]
  · simp [setupReleaseContext, Bool.or_comm]
  · intro h
    simp [setupReleaseContext, h]

/-- Witness of C3: a run without snapshot on a context whose flags were all
set keeps exactly the requested values. -/
theorem setupReleaseContext_flag_resolution_witness :
    staleCtx.SkipValidate = true ∧
      (setupReleaseContext staleCtx plainOpts).1.SkipPublish = true ∧
      (setupReleaseContext staleCtx plainOpts).1.SkipValidate = false :=
  ⟨rfl, (setupReleaseContext_flag_resolution staleCtx staleCtx plainOpts).2.2.2.1 rfl⟩

/-- C10: `setupReleaseContext` copies `parallelism`, the three release-note
paths, `rmDist` and `deprecated` from the options as they are, leaves the
configuration, the cancellation state and every other field of the context
as they were, and applying it a second time with the same options changes
nothing. -/
theorem setupReleaseContext_frame {Cfg Rest : Type} (ctx : Context Cfg Rest)
    (options : releaseOpts) :
    (setupReleaseContext ctx options).1.Parallelism = options.parallelism ∧
      (setupReleaseContext ctx options).1.ReleaseNotes = options.releaseNotes ∧
      (setupReleaseContext ctx options).1.ReleaseHeader = options.releaseHeader ∧
      (setupReleaseContext ctx options).1.ReleaseFooter = options.releaseFooter ∧
      (setupReleaseContext ctx options).1.RmDist = options.rmDist ∧
      (setupReleaseContext ctx options).1.Deprecated = options.deprecated ∧
      (setupReleaseContext ctx options).1.Config = ctx.Config ∧
      (setupReleaseContext ctx options).1.Done = ctx.Done ∧
      (setupReleaseContext ctx options).1.rest = ctx.rest ∧
      (setupReleaseContext (setupReleaseContext ctx options).1 options).1
        = (setupReleaseContext ctx options).1 :=
  ⟨rfl, rfl, rfl, rfl, rfl, rfl, rfl, rfl, rfl, rfl⟩

/-- C2: after `setupReleaseContext`, `SkipSign` is exactly the requested
`skipSign`, whatever `snapshot` is and whatever the context held before. -/
theorem setupReleaseContext_skipSign {Cfg Rest : Type} (ctx : Context Cfg Rest)
    (options : releaseOpts) :
    (setupReleaseContext ctx options).1.SkipSign = options.skipSign := rfl

/-! ## The pipeline loop -/

/-- One turn of the loop on a stage whose wrapped action fails: the loop
returns that error and goes no further. -/
theorem pipelineLoop_cons_err {Cfg Rest E : Type} (mw : Middleware Cfg Rest E)
    (ctx : Context Cfg Rest) (p : Piper Cfg Rest E) (ps : List (Piper Cfg Rest E)) (e : E)
    (h : (wrapped mw p ctx).2 = some e) :
    pipelineLoop mw ctx (p :: ps) = ⟨(wrapped mw p ctx).1, some e, [p]⟩ := by
  cases hw : wrapped mw p ctx with
  | mk c1 e1 =>
    rw [hw] at h
    simp only at h
    subst h
    simp [pipelineLoop, hw]

/-- One turn of the loop on a stage whose wrapped action returns nil: the
loop carries on with the remaining stages on the context the stage left. -/
theorem pipelineLoop_cons_ok {Cfg Rest E : Type} (mw : Middleware Cfg Rest E)
    (ctx : Context Cfg Rest) (p : Piper Cfg Rest E) (ps : List (Piper Cfg Rest E))
    (h : (wrapped mw p ctx).2 = none) :
    pipelineLoop mw ctx (p :: ps) =
      ⟨(pipelineLoop mw (wrapped mw p ctx).1 ps).ctx, (pipelineLoop mw (wrapped mw p ctx).1 ps).err,
        p :: (pipelineLoop mw (wrapped mw p ctx).1 ps).invoked⟩ := by
  cases hw : wrapped mw p ctx with
  | mk c1 e1 =>
    rw [hw] at h
    simp only at h
    subst h
    simp [pipelineLoop, hw]

/-- When every stage succeeds in turn, the loop returns nil and has invoked
the whole list. -/
theorem pipelineLoop_all_ok {Cfg Rest E : Type} (mw : Middleware Cfg Rest E)
    (stages : List (Piper Cfg Rest E)) :
    ∀ ctx : Context Cfg Rest,
      (∀ i, i < stages.length → stageErr mw ctx stages i = none) →
      (pipelineLoop mw ctx stages).err = none ∧ (pipelineLoop mw ctx stages).invoked = stages := by
  induction stages with
  | nil => intro ctx _; exact ⟨rfl, rfl⟩
  | cons p ps ih =>
    intro ctx h
    have h0 : (wrapped mw p ctx).2 = none := h 0 (by simp)
    have hrest : ∀ i, i < ps.length → stageErr mw (wrapped mw p ctx).1 ps i = none := by
      intro i hi
      exact h (i + 1) (by simpa using hi)
    rw [pipelineLoop_cons_ok mw ctx p ps h0]
    exact ⟨(ih _ hrest).1, by simp [(ih _ hrest).2]⟩

/-- When the stage at position `k` is the first to fail, the loop returns its
error and has invoked the stages up to and including it. -/
theorem pipelineLoop_first_fail {Cfg Rest E : Type} (mw : Middleware Cfg Rest E)
    (stages : List (Piper Cfg Rest E)) :
    ∀ (ctx : Context Cfg Rest) (k : Nat) (e : E), k < stages.length →
      (∀ i, i < k → stageErr mw ctx stages i = none) → stageErr mw ctx stages k = some e →
      (pipelineLoop mw ctx stages).err = some e ∧
        (pipelineLoop mw ctx stages).invoked = stages.take (k + 1) := by
  induction stages with
  | nil => intro ctx k e hk; simp at hk
  | cons p ps ih =>
    intro ctx k e hk hbefore hfail
    cases k with
    | zero =>
      have h0 : (wrapped mw p ctx).2 = some e := hfail
      rw [pipelineLoop_cons_err mw ctx p ps e h0]
      simp
    | succ k =>
      have h0 : (wrapped mw p ctx).2 = none := hbefore 0 (by simp)
      have hk2 : k < ps.length := by simpa using hk
      have hb : ∀ i, i < k → stageErr mw (wrapped mw p ctx).1 ps i = none := by
        intro i hi
        exact hbefore (i + 1) (by omega)
      have hf : stageErr mw (wrapped mw p ctx).1 ps k = some e := hfail
      rw [pipelineLoop_cons_ok mw ctx p ps h0]
      exact ⟨(ih _ k e hk2 hb hf).1, by simp [(ih _ k e hk2 hb hf).2]⟩

/-- A loop that returns nil met no failing stage. -/
theorem pipelineLoop_err_none {Cfg Rest E : Type} (mw : Middleware Cfg Rest E)
    (stages : List (Piper Cfg Rest E)) :
    ∀ ctx : Context Cfg Rest, (pipelineLoop mw ctx stages).err = none →
      ∀ i, i < stages.length → stageErr mw ctx stages i = none := by
  induction stages with
  | nil => intro ctx _ i hi; simp at hi
  | cons p ps ih =>
    intro ctx h i hi
    cases h0 : (wrapped mw p ctx).2 with
    | some e =>
      rw [pipelineLoop_cons_err mw ctx p ps e h0] at h
      simp at h
    | none =>
      rw [pipelineLoop_cons_ok mw ctx p ps h0] at h
      cases i with
      | zero => exact h0
      | succ i => exact ih _ h i (by simpa using hi)

/-- The stages invoked are an initial segment of the list. -/
theorem pipelineLoop_invoked_initial {Cfg Rest E : Type} (mw : Middleware Cfg Rest E)
    (stages : List (Piper Cfg Rest E)) :
    ∀ ctx : Context Cfg Rest, (pipelineLoop mw ctx stages).invoked <+: stages := by
  induction stages with
  | nil => intro ctx; exact List.prefix_refl _
  | cons p ps ih =>
    intro ctx
    cases h0 : (wrapped mw p ctx).2 with
    | some e =>
      rw [pipelineLoop_cons_err mw ctx p ps e h0]
      exact ⟨ps, rfl⟩
    | none =>
      rw [pipelineLoop_cons_ok mw ctx p ps h0]
      obtain ⟨t, ht⟩ := ih (wrapped mw p ctx).1
      exact ⟨t, by simp [ht]⟩

/-- The loop reaches every stage whose predecessors all returned nil. -/
theorem pipelineLoop_reaches {Cfg Rest E : Type} (mw : Middleware Cfg Rest E)
    (stages : List (Piper Cfg Rest E)) :
    ∀ (ctx : Context Cfg Rest) (k : Nat), k < stages.length →
      (∀ i, i < k → stageErr mw ctx stages i = none) →
      stages.take (k + 1) <+: (pipelineLoop mw ctx stages).invoked := by
  induction stages with
  | nil => intro ctx k hk; simp at hk
  | cons p ps ih =>
    intro ctx k hk hbefore
    cases k with
    | zero =>
      cases h0 : (wrapped mw p ctx).2 with
      | some e =>
        rw [pipelineLoop_cons_err mw ctx p ps e h0]
        simp
      | none =>
        rw [pipelineLoop_cons_ok mw ctx p ps h0]
        simp
    | succ k =>
      have h0 : (wrapped mw p ctx).2 = none := hbefore 0 (by simp)
      have hk2 : k < ps.length := by simpa using hk
      have hb : ∀ i, i < k → stageErr mw (wrapped mw p ctx).1 ps i = none := by
        intro i hi
        exact hbefore (i + 1) (by omega)
      rw [pipelineLoop_cons_ok mw ctx p ps h0]
      obtain ⟨t, ht⟩ := ih (wrapped mw p ctx).1 k hk2 hb
      exact ⟨t, by simp [← ht]⟩

/-- C4: the stages the loop invokes are an initial segment of the list, in
list order; when the stage at position `k` is the first whose wrapped action
returns an error, the stages invoked are exactly those at positions `0..k`;
when no stage fails, the whole list is invoked in order. -/
theorem pipelineLoop_invokes_up_to_first_failure {Cfg Rest E : Type}
    (mw : Middleware Cfg Rest E) (ctx : Context Cfg Rest) (stages : List (Piper Cfg Rest E)) :
    (pipelineLoop mw ctx stages).invoked <+: stages ∧
      (∀ k, k < stages.length → (∀ i, i < k → stageErr mw ctx stages i = none) →
        stageErr mw ctx stages k ≠ none →
        (pipelineLoop mw ctx stages).invoked = stages.take (k + 1)) ∧
      ((∀ i, i < stages.length → stageErr mw ctx stages i = none) →
        (pipelineLoop mw ctx stages).invoked = stages) := by
  refine ⟨pipelineLoop_invoked_initial mw stages ctx, ?_, ?_⟩
  · intro k hk hbefore hfail
    cases he : stageErr mw ctx stages k with
    | none => exact absurd he hfail
    | some e => exact (pipelineLoop_first_fail mw stages ctx k e hk hbefore he).2
  · intro h
    exact (pipelineLoop_all_ok mw stages ctx h).2

/-- Witness of C4: with A and B succeeding and C failing, the loop invokes A,
B and C and neither D nor E. -/
theorem pipelineLoop_invokes_up_to_first_failure_witness :
    abcStages.length = 5 ∧
      (pipelineLoop plainMiddleware staleCtx abcStages).invoked.map Piper.name
        = ["A", "B", "C"] := by
  refine ⟨rfl, ?_⟩
  have h := (pipelineLoop_invokes_up_to_first_failure plainMiddleware staleCtx abcStages).2.1 2
    (by decide) (by intro i hi; interval_cases i <;> rfl) (by simp [abcStages, stageErr, wrapped,
      plainMiddleware, okStage, failStage])
  rw [h]
  rfl

/-- C5: the loop returns nil exactly when every stage's wrapped action
returns nil; otherwise it returns the error of the first failing stage; and
on the empty list it returns nil with the context untouched and no stage
invoked. -/
theorem pipelineLoop_returns_first_error {Cfg Rest E : Type}
    (mw : Middleware Cfg Rest E) (ctx : Context Cfg Rest) (stages : List (Piper Cfg Rest E)) :
    ((pipelineLoop mw ctx stages).err = none ↔
        ∀ i, i < stages.length → stageErr mw ctx stages i = none) ∧
      (∀ k, k < stages.length → (∀ i, i < k → stageErr mw ctx stages i = none) →
        stageErr mw ctx stages k ≠ none →
        (pipelineLoop mw ctx stages).err = stageErr mw ctx stages k) ∧
      ((pipelineLoop mw ctx []).err = none ∧ (pipelineLoop mw ctx []).invoked = [] ∧
        (pipelineLoop mw ctx []).ctx = ctx) := by
  refine ⟨⟨pipelineLoop_err_none mw stages ctx, fun h => (pipelineLoop_all_ok mw stages ctx h).1⟩,
    ?_, rfl, rfl, rfl⟩
  intro k hk hbefore hfail
  cases he : stageErr mw ctx stages k with
  | none => exact absurd he hfail
  | some e => exact (pipelineLoop_first_fail mw stages ctx k e hk hbefore he).1

/-- Witness of C5: the loop returns the error of C, not the one E would have
given. -/
theorem pipelineLoop_returns_first_error_witness :
    stageErr plainMiddleware staleCtx abcStages 4 = some "late" ∧
      (pipelineLoop plainMiddleware staleCtx abcStages).err = some "disk full" := by
  refine ⟨rfl, ?_⟩
  have h := (pipelineLoop_returns_first_error plainMiddleware staleCtx abcStages).2.1 2
    (by decide) (by intro i hi; interval_cases i <;> rfl) (by simp [abcStages, stageErr, wrapped,
      plainMiddleware, okStage, failStage])
  rw [h]
  rfl

/-- C6, as stated, fails. The claim reads: when the stages before position
`k` all returned nil and the context is cancelled at the moment the stage at
position `k` is about to be invoked, that stage and the later ones are not
invoked, so at most `k` stages are invoked. On the context `cancelledCtx`,
cancelled before the first stage, the loop invokes all of A, B and C; at
`k = 0` the claim allows none. -/
theorem pipelineLoop_cancelled_not_stopped :
    (cancelledCtx.Done = true ∧
      (pipelineLoop plainMiddleware cancelledCtx okStages).err = none ∧
      (pipelineLoop plainMiddleware cancelledCtx okStages).invoked.map Piper.name
        = ["A", "B", "C"]) ∧
    ¬ (∀ (ctx : Context String Nat) (stages : List (Piper String Nat String)) (k : Nat),
        k < stages.length → (∀ i, i < k → stageErr plainMiddleware ctx stages i = none) →
        (ctxAt plainMiddleware ctx stages k).Done = true →
        (pipelineLoop plainMiddleware ctx stages).invoked.length ≤ k) := by
  refine ⟨⟨rfl, rfl, rfl⟩, ?_⟩
  intro h
  have h0 := h cancelledCtx okStages 0 (by decide) (by intro i hi; omega) rfl
  have h1 : ((pipelineLoop plainMiddleware cancelledCtx okStages).invoked).length = 3 := rfl
  omega

/-- C6, amended: whenever the stages before position `k` all returned nil,
the stage at position `k` is invoked, whatever the context holds at that
point, cancelled or not: the stages at positions `0..k` open the list of
invoked stages, so more than `k` stages are invoked. -/
theorem pipelineLoop_invokes_next_when_cancelled {Cfg Rest E : Type}
    (mw : Middleware Cfg Rest E) (ctx : Context Cfg Rest) (stages : List (Piper Cfg Rest E))
    (k : Nat) (hk : k < stages.length)
    (hbefore : ∀ i, i < k → stageErr mw ctx stages i = none) :
    stages.take (k + 1) <+: (pipelineLoop mw ctx stages).invoked ∧
      k < (pipelineLoop mw ctx stages).invoked.length := by
  have h := pipelineLoop_reaches mw stages ctx k hk hbefore
  refine ⟨h, ?_⟩
  have hlen := h.length_le
  rw [List.length_take] at hlen
  omega

/-- Witness of C6 amended: the context is cancelled before the first stage
and is still so before the third, and the loop invokes all three stages. -/
theorem pipelineLoop_invokes_next_when_cancelled_witness :
    cancelledCtx.Done = true ∧ (ctxAt plainMiddleware cancelledCtx okStages 2).Done = true ∧
      okStages.take 3 <+: (pipelineLoop plainMiddleware cancelledCtx okStages).invoked ∧
      2 < (pipelineLoop plainMiddleware cancelledCtx okStages).invoked.length :=
  ⟨rfl, rfl, pipelineLoop_invokes_next_when_cancelled plainMiddleware cancelledCtx okStages 2
    (by decide) (by intro i hi; interval_cases i <;> rfl)⟩

/-! ## releaseProject and the command -/

/-- C7: when `releaseProject` returns no error, it returned a context, `RunE`
returns nil, and what is logged is "releasing...", then the lines of
`releaseProject`, then the deprecation warning if `ctx.Deprecated` is set,
then the success message last; the warning is logged exactly when
`ctx.Deprecated` is true and no failure message is logged. -/
theorem RunE_success {Cfg Rest E : Type} (env : Env Cfg Rest E) (opts : releaseOpts)
    (since : Nat) (h : (releaseProject env opts).err = none) :
    ∃ ctx, (releaseProject env opts).ctx = some ctx ∧
      (RunE env opts since).1 = Outcome.returned none ∧
      (RunE env opts since).2 =
        [Entry.mk Level.info Msg.releasing] ++ (releaseProject env opts).log ++
          (if ctx.Deprecated then [Entry.mk Level.warn Msg.deprecatedWarning] else []) ++
          [Entry.mk Level.info (Msg.succeeded since)] ∧
      (Entry.mk Level.warn Msg.deprecatedWarning ∈ (RunE env opts since).2 ↔
        ctx.Deprecated = true) ∧
      (∀ (l : Level) (t : Nat), Entry.mk l (Msg.failed t) ∉ (RunE env opts since).2) := by
  cases hc : env.loadConfig opts.config with
  | error e =>
    simp [releaseProject, hc] at h
  | ok cfg =>
    have hlog : (releaseProject env opts).log
        = [Entry.mk Level.debug (Msg.parallelism opts.parallelism)] := by
      simp [releaseProject, hc, setupReleaseContext]
    cases hx : (releaseProject env opts).ctx with
    | none => simp [releaseProject, hc] at hx
    | some ctx =>
      refine ⟨ctx, rfl, ?_⟩
      cases hd : ctx.Deprecated <;> simp [RunE, h, hx, hd, hlog]

/-- Witness of C7: a run of three succeeding stages with the `deprecated`
flag set returns nil and logs the warning just before the success message. -/
theorem RunE_success_witness :
    (RunE okEnv deprecatedOpts 250).1 = Outcome.returned none ∧
      (RunE okEnv deprecatedOpts 250).2 =
        [Entry.mk Level.info Msg.releasing, Entry.mk Level.debug (Msg.parallelism (-3)),
          Entry.mk Level.warn Msg.deprecatedWarning, Entry.mk Level.info (Msg.succeeded 250)] := by
  obtain ⟨ctx, hctx, hret, hlog, _, _⟩ := RunE_success okEnv deprecatedOpts 250 rfl
  have hc : ctx.Deprecated = true := by
    have : (releaseProject okEnv deprecatedOpts).ctx.map (fun c => c.Deprecated) = some true := rfl
    rw [hctx] at this
    simpa using this
  refine ⟨hret, ?_⟩
  rw [hlog, hc]
  rfl

/-- C8: when the loader fails with `e`, `releaseProject` returns the nil
context and `e` itself, has written nothing to the logger (the line that
`setupReleaseContext` always writes is absent) and has invoked no stage,
whatever the context constructor, the supervisor and the pipeline are;
`RunE` then returns a non-nil error wrapping `e`, and its log holds the
opening line only, so neither the deprecation warning nor the success
message. -/
theorem releaseProject_config_error {Cfg Rest E : Type} (env : Env Cfg Rest E)
    (opts : releaseOpts) (since : Nat) (e : E)
    (h : env.loadConfig opts.config = Except.error e) :
    (releaseProject env opts).ctx = none ∧ (releaseProject env opts).err = some e ∧
      (releaseProject env opts).log = [] ∧ (releaseProject env opts).invoked = [] ∧
      (RunE env opts since).1 = Outcome.returned (some (wrapError e (Msg.failed since))) ∧
      (RunE env opts since).2 = [Entry.mk Level.info Msg.releasing] := by
  simp [RunE, releaseProject, h]

/-- Witness of C8: a loader that fails with "no such file", in front of a
pipeline of three stages. -/
theorem releaseProject_config_error_witness :
    badConfigEnv.Pipeline.length = 3 ∧
      (releaseProject badConfigEnv plainOpts).ctx = none ∧
      (releaseProject badConfigEnv plainOpts).err = some "no such file" ∧
      (releaseProject badConfigEnv plainOpts).invoked = [] ∧
      (RunE badConfigEnv plainOpts 120).1
        = Outcome.returned (some (exitError.mk "no such file" (Msg.failed 120))) ∧
      (RunE badConfigEnv plainOpts 120).2 = [Entry.mk Level.info Msg.releasing] := by
  have h := releaseProject_config_error badConfigEnv plainOpts 120 "no such file" rfl
  exact ⟨rfl, h.1, h.2.1, h.2.2.2.1, h.2.2.2.2.1, h.2.2.2.2.2⟩

end Goreleaser
